import Mathlib

/-!
Shallow embedding of `src/product_function.js`: five AWS-Lambda-style
request handlers (list, create, read-by-id, update, delete) for a product
table backed by SQL Server, with a JWT bearer-token check on every handler
except the list.

Modelling conventions:
* JavaScript values occurring in request bodies are modelled by `JVal`
  (null / string / number / boolean); an absent field of a parsed JSON
  body is `Option.none` (JS `undefined`).  JS truthiness and the loose
  `== null` comparison are modelled by `truthy` and `looseEqNull`.
* The database table `dbo.ProductsTable` is a list of `Row`s.  The SQL
  statements of the source are modelled by their effect on that list:
  `INSERT` appends (the source's column list omits `productId`,
  `category` and `imageUrl`, so the stored row has `productId = none`),
  `SELECT ... WHERE productId = p` filters (SQL `NULL = p` is not true),
  `UPDATE ... SET col = ISNULL(param, col)` maps `jsIsnull` over the
  matching rows, `DELETE` filters the matching rows out.
* Exceptions (`verifyToken` throwing `Unauthorized`, connection/query
  failure) are modelled by explicit branches: the environment `Env`
  carries the token-verification oracle `verify`, a flag `dbOk` telling
  whether the database connection/statement succeeds, the error message
  `dbErr` raised when it does not, and the clock `now` used for
  `GETDATE()`.
* A handler returns an `HResult`: the HTTP response, the table after the
  call, and `dbCalls`, the number of database statements reached (0 when
  the handler short-circuits before `sql.connect`).
-/

namespace ProductFunction

/-- A parsed JSON value as the handlers see it. -/
inductive JVal where
  | jnull
  | jstr (s : String)
  | jnum (q : ℚ)
  | jbool (b : Bool)
  deriving DecidableEq

/-- JS truthiness of a possibly-absent value: `undefined`, `null`, `""`,
`0` and `false` are falsy. -/
def truthy : Option JVal → Bool
  | none => false
  | some .jnull => false
  | some (.jstr s) => decide (s ≠ "")
  | some (.jnum q) => decide (q ≠ 0)
  | some (.jbool b) => b

/-- JS loose equality `x == null`, true exactly for `null` and `undefined`. -/
def looseEqNull : Option JVal → Bool
  | none => true
  | some .jnull => true
  | some _ => false

/-- JS truthiness of a possibly-absent string (header value). -/
def strTruthy : Option String → Bool
  | none => false
  | some s => decide (s ≠ "")

/-- JS `a || b` on possibly-absent strings: `a` when truthy, else `b`. -/
def jsOr (a b : Option String) : Option String :=
  if strTruthy a then a else b

/-- Does `p` occur at the head of `s`? -/
def leadMatches : List Char → List Char → Bool
  | [], _ => true
  | _ :: _, [] => false
  | p :: ps, c :: cs => p == c && leadMatches ps cs

/-- Replace the first occurrence of `pat` by `repl` in a character list;
with an empty `pat`, `repl` is inserted at the front, as in JS. -/
def replaceFirstChars (pat repl : List Char) : List Char → List Char
  | [] => if leadMatches pat [] then repl else []
  | c :: cs =>
      if leadMatches pat (c :: cs) then repl ++ (c :: cs).drop pat.length
      else c :: replaceFirstChars pat repl cs

/-- JS `String.prototype.replace` with a string pattern: replaces only the
first occurrence of `pat` by `repl`. -/
def replaceFirst (s pat repl : String) : String :=
  ⟨replaceFirstChars pat.data repl.data s.data⟩

/-- Property access on the JS headers object, modelled as first-match
lookup of the exact key in an association list. -/
def lookupHeader (hs : List (String × String)) (k : String) : Option String :=
  match hs with
  | [] => none
  | (k2, v) :: rest => if k2 = k then some v else lookupHeader rest k

/-- The parsed request body; each field is absent (`none`) or a `JVal`. -/
structure Body where
  productId : Option JVal
  name : Option JVal
  description : Option JVal
  price : Option JVal
  quantity : Option JVal
  category : Option JVal
  imageUrl : Option JVal
  deriving DecidableEq

/-- An incoming invocation: headers, `pathParameters.productId`, body. -/
structure Event where
  headers : List (String × String)
  pathProductId : String
  body : Body
  deriving DecidableEq

/-- A row of `dbo.ProductsTable` as the statements of the source touch it.
`productId` is `Option` because the source's `INSERT` lists no
`productId` column, leaving it SQL `NULL`. -/
structure Row where
  productId : Option String
  name : JVal
  description : JVal
  price : JVal
  quantity : JVal
  createdAt : ℕ
  deriving DecidableEq

/-- The products table. -/
abbrev DB := List Row

/-- The JSON-encoded response body, kept structured. -/
inductive RBody where
  | errMsg (e : String)
  | okMsg (m : String)
  | record (r : Row)
  | records (rs : List Row)
  deriving DecidableEq

/-- The `{statusCode, body}` envelope every handler returns. -/
structure Resp where
  statusCode : ℕ
  body : RBody
  deriving DecidableEq

/-- Per-invocation environment: token-verification oracle (`true` =
`verify` returns a decoded token, `false` = it throws `Unauthorized`),
whether `sql.connect`/`sql.query` succeed, the error message when they do
not, and the value of `GETDATE()`. -/
structure Env where
  verify : String → Bool
  dbOk : Bool
  dbErr : String
  now : ℕ

/-- Outcome of one handler invocation: response, table afterwards, and
the number of database statements reached. -/
structure HResult where
  resp : Resp
  db : DB
  dbCalls : ℕ
  deriving DecidableEq

/-- `event.headers.Authorization || event.headers.authorization`. -/
def authToken (e : Event) : Option String :=
  jsOr (lookupHeader e.headers "Authorization") (lookupHeader e.headers "authorization")

/-- The bearer token handed to `verifyToken`:
`token.replace('Bearer ', '')`. -/
def bearerValue (e : Event) : String :=
  replaceFirst ((authToken e).getD "") "Bearer " ""

/-- Create validation `!name || !description || !price || quantity == null`
(the source checks only these four of the body's fields). -/
def missingRequired (b : Body) : Bool :=
  !truthy b.name || !truthy b.description || !truthy b.price || looseEqNull b.quantity

/-- Update validation `!name && !description && !price && quantity == null`. -/
def noFieldsToUpdate (b : Body) : Bool :=
  !truthy b.name && !truthy b.description && !truthy b.price && looseEqNull b.quantity

/-- SQL `ISNULL(param, col)` where the bound parameter is NULL when the
body field is absent or JSON null. -/
def jsIsnull (p : Option JVal) (old : JVal) : JVal :=
  match p with
  | none => old
  | some .jnull => old
  | some v => v

/-- Effect of the source's `UPDATE ... SET col = ISNULL(param, col)` on
one matching row; `productId` and `createdAt` are not in the SET list. -/
def updateRow (b : Body) (r : Row) : Row :=
  { r with
    name := jsIsnull b.name r.name
    description := jsIsnull b.description r.description
    price := jsIsnull b.price r.price
    quantity := jsIsnull b.quantity r.quantity }

/-- `exports.getProducts`: no auth check, `SELECT * FROM dbo.ProductsTable`. -/
def getProducts (env : Env) (db : DB) : HResult :=
  if !env.dbOk then ⟨⟨500, .errMsg env.dbErr⟩, db, 1⟩
  else ⟨⟨200, .records db⟩, db, 1⟩

/-- `exports.addProduct`. -/
def addProduct (env : Env) (db : DB) (e : Event) : HResult :=
  if !strTruthy (authToken e) then
    ⟨⟨401, .errMsg "Authorization token missing"⟩, db, 0⟩
  else if !env.verify (bearerValue e) then
    ⟨⟨500, .errMsg "Unauthorized"⟩, db, 0⟩
  else if missingRequired e.body then
    ⟨⟨400, .errMsg "Missing required fields"⟩, db, 0⟩
  else if !env.dbOk then
    ⟨⟨500, .errMsg env.dbErr⟩, db, 1⟩
  else
    ⟨⟨201, .okMsg "Product added successfully"⟩,
      db ++ [⟨none, (e.body.name).getD .jnull, (e.body.description).getD .jnull,
        (e.body.price).getD .jnull, (e.body.quantity).getD .jnull, env.now⟩], 1⟩

/-- `exports.getProductById`. -/
def getProductById (env : Env) (db : DB) (e : Event) : HResult :=
  if !strTruthy (authToken e) then
    ⟨⟨401, .errMsg "Authorization token missing"⟩, db, 0⟩
  else if !env.verify (bearerValue e) then
    ⟨⟨500, .errMsg "Unauthorized"⟩, db, 0⟩
  else if !env.dbOk then
    ⟨⟨500, .errMsg env.dbErr⟩, db, 1⟩
  else
    match db.filter (fun r => r.productId == some e.pathProductId) with
    | [] => ⟨⟨404, .errMsg "Product not found"⟩, db, 1⟩
    | r :: _ => ⟨⟨200, .record r⟩, db, 1⟩

/-- `exports.updateProduct`. -/
def updateProduct (env : Env) (db : DB) (e : Event) : HResult :=
  if !strTruthy (authToken e) then
    ⟨⟨401, .errMsg "Authorization token missing"⟩, db, 0⟩
  else if !env.verify (bearerValue e) then
    ⟨⟨500, .errMsg "Unauthorized"⟩, db, 0⟩
  else if noFieldsToUpdate e.body then
    ⟨⟨400, .errMsg "No fields to update"⟩, db, 0⟩
  else if !env.dbOk then
    ⟨⟨500, .errMsg env.dbErr⟩, db, 1⟩
  else
    ⟨⟨200, .okMsg "Product updated successfully"⟩,
      db.map (fun r => if r.productId == some e.pathProductId then updateRow e.body r else r), 1⟩

/-- `exports.deleteProduct`. -/
def deleteProduct (env : Env) (db : DB) (e : Event) : HResult :=
  if !strTruthy (authToken e) then
    ⟨⟨401, .errMsg "Authorization token missing"⟩, db, 0⟩
  else if !env.verify (bearerValue e) then
    ⟨⟨500, .errMsg "Unauthorized"⟩, db, 0⟩
  else if !env.dbOk then
    ⟨⟨500, .errMsg env.dbErr⟩, db, 1⟩
  else
    ⟨⟨200, .okMsg "Product deleted successfully"⟩,
      db.filter (fun r => !(r.productId == some e.pathProductId)), 1⟩

/-- Environment for concrete runs: every token verifies, the database is
up, the clock reads 0. -/
def envOk : Env := ⟨fun _ => true, true, "db failure", 0⟩

/-- Environment in which token verification throws `Unauthorized`. -/
def envBadToken : Env := ⟨fun _ => false, true, "db failure", 0⟩

/-- Environment in which `sql.connect`/`sql.query` fail. -/
def envDbDown : Env := ⟨fun _ => true, false, "connect ECONNREFUSED", 0⟩

/-- A body with every field absent. -/
def emptyBody : Body := ⟨none, none, none, none, none, none, none⟩

/-- Create body carrying the spec's seven fields, price 9.99. -/
def bodyFull : Body :=
  ⟨some (.jstr "P1"), some (.jstr "Widget"), some (.jstr "d"), some (.jnum (mkRat 999 100)),
   some (.jnum 5), some (.jstr "tools"), some (.jstr "http://x/img.png")⟩

/-- Create body without `productId`, `category`, `imageUrl`. -/
def bodyNoId : Body :=
  ⟨none, some (.jstr "Widget"), some (.jstr "d"), some (.jnum (mkRat 999 100)),
   some (.jnum 5), none, none⟩

/-- Create body whose `price` field is absent. -/
def bodyNoPrice : Body :=
  ⟨none, some (.jstr "Widget"), some (.jstr "d"), none, some (.jnum 5), none, none⟩

/-- Create body with `quantity` exactly 0 and the other checked fields truthy. -/
def bodyQtyZero : Body :=
  ⟨none, some (.jstr "Widget"), some (.jstr "d"), some (.jnum (mkRat 999 100)),
   some (.jnum 0), none, none⟩

/-- Authenticated create request with the full seven-field body. -/
def eCreateFull : Event := ⟨[("Authorization", "Bearer tok")], "", bodyFull⟩

/-- Authenticated create request missing `productId`, `category`, `imageUrl`. -/
def eCreateNoId : Event := ⟨[("Authorization", "Bearer tok")], "", bodyNoId⟩

/-- Authenticated create request missing `price`. -/
def eCreateNoPrice : Event := ⟨[("Authorization", "Bearer tok")], "", bodyNoPrice⟩

/-- Authenticated create request with `quantity` 0. -/
def eQtyZero : Event := ⟨[("Authorization", "Bearer tok")], "", bodyQtyZero⟩

/-- Authenticated read of `/products/P1`. -/
def eGetP1 : Event := ⟨[("Authorization", "Bearer tok")], "P1", emptyBody⟩

/-- Authenticated delete of `/products/P1`. -/
def eDelP1 : Event := ⟨[("Authorization", "Bearer tok")], "P1", emptyBody⟩

/-- Authenticated update of `/products/P1` with an empty body. -/
def eUpdEmpty : Event := ⟨[("Authorization", "Bearer tok")], "P1", emptyBody⟩

/-- Authenticated update of `/products/P1` supplying only `price: 0`. -/
def ePrice0 : Event :=
  ⟨[("Authorization", "Bearer tok")], "P1", ⟨none, none, none, some (.jnum 0), none, none, none⟩⟩

/-- Authenticated update of `/products/P1` supplying only `price: 19.99`. -/
def eUpdPrice : Event :=
  ⟨[("Authorization", "Bearer tok")], "P1",
   ⟨none, none, none, some (.jnum (mkRat 1999 100)), none, none, none⟩⟩

/-- Authenticated update of `/products/P1` supplying only `name: "x"`. -/
def eUpdNameP1 : Event :=
  ⟨[("Authorization", "Bearer tok")], "P1", ⟨none, some (.jstr "x"), none, none, none, none, none⟩⟩

/-- Request whose only header is an unrelated one. -/
def eNoAuth : Event := ⟨[("X-Api-Key", "k")], "P1", emptyBody⟩

/-- Request carrying the token under the key `AUTHORIZATION` (wrong casing). -/
def eWrongCase : Event := ⟨[("AUTHORIZATION", "Bearer tok")], "P1", emptyBody⟩

/-- A stored row with `productId` "P1". -/
def rowP1 : Row := ⟨some "P1", .jstr "Widget", .jstr "d", .jnum (mkRat 999 100), .jnum 5, 0⟩

/-- A stored row with `productId` "Q" (never matching "P1"). -/
def rowQ : Row := ⟨some "Q", .jstr "W", .jstr "d", .jnum 1, .jnum 2, 0⟩

/-- `ISNULL` with a non-null bound parameter yields the parameter. -/
theorem jsIsnull_some (p old : JVal) (h : p ≠ .jnull) : jsIsnull (some p) old = p := by
  cases p <;> simp [jsIsnull] at h ⊢

/-- `ISNULL` with an absent or JSON-null body field keeps the column. -/
theorem jsIsnull_absent (p : Option JVal) (old : JVal)
    (h : p = none ∨ p = some .jnull) : jsIsnull p old = old := by
  rcases h with h | h <;> rw [h] <;> rfl

/-- The `UPDATE` statement leaves a table with no matching row unchanged. -/
theorem map_update_no_match (b : Body) (pid : String) (db : DB)
    (h : ∀ r ∈ db, r.productId ≠ some pid) :
    db.map (fun r => if r.productId = some pid then updateRow b r else r) = db := by
  induction db with
  | nil => rfl
  | cons r rest ih =>
    have hr : r.productId ≠ some pid := h r (by simp)
    simp only [List.map_cons]
    rw [if_neg hr, ih (fun s hs => h s (by simp [hs]))]

/-- The `DELETE` statement leaves a table with no matching row unchanged. -/
theorem filter_delete_no_match (pid : String) (db : DB)
    (h : ∀ r ∈ db, r.productId ≠ some pid) :
    db.filter (fun r => !(r.productId == some pid)) = db := by
  induction db with
  | nil => rfl
  | cons r rest ih =>
    have hr : r.productId ≠ some pid := h r (by simp)
    simp only [List.filter_cons]
    rw [if_pos (by simpa using hr), ih (fun s hs => h s (by simp [hs]))]

/-- C3: every handler that requires authentication answers a request with
no `Authorization`/`authorization` header by status 401 with body
`{error: "Authorization token missing"}`, leaves the table unchanged and
executes no database statement. -/
theorem claim_C3_missing_auth_header (env : Env) (db : DB) (e : Event)
    (hA : lookupHeader e.headers "Authorization" = none)
    (ha : lookupHeader e.headers "authorization" = none) :
    addProduct env db e = ⟨⟨401, .errMsg "Authorization token missing"⟩, db, 0⟩ ∧
    getProductById env db e = ⟨⟨401, .errMsg "Authorization token missing"⟩, db, 0⟩ ∧
    updateProduct env db e = ⟨⟨401, .errMsg "Authorization token missing"⟩, db, 0⟩ ∧
    deleteProduct env db e = ⟨⟨401, .errMsg "Authorization token missing"⟩, db, 0⟩ := by
  have ht : strTruthy (authToken e) = false := by
    simp [authToken, jsOr, hA, ha, strTruthy]
  refine ⟨?_, ?_, ?_, ?_⟩ <;>
    simp [addProduct, getProductById, updateProduct, deleteProduct, ht]

/-- C3 witness: a request carrying only an unrelated header gets the 401
response from create and from delete, with no database statement. -/
theorem claim_C3_missing_auth_header_witness :
    addProduct envOk [rowP1] eNoAuth = ⟨⟨401, .errMsg "Authorization token missing"⟩, [rowP1], 0⟩ ∧
    deleteProduct envOk [rowP1] eNoAuth = ⟨⟨401, .errMsg "Authorization token missing"⟩, [rowP1], 0⟩ := by
  have h := claim_C3_missing_auth_header envOk [rowP1] eNoAuth (by decide) (by decide)
  exact ⟨h.1, h.2.2.2⟩

/-- C8: an update request with a valid token whose body contains none of
the four updatable fields is answered 400 `{error: "No fields to update"}`
and executes no database statement. -/
theorem claim_C8_update_no_fields (env : Env) (db : DB) (e : Event)
    (htok : strTruthy (authToken e) = true)
    (hver : env.verify (bearerValue e) = true)
    (hn : e.body.name = none) (hd : e.body.description = none)
    (hp : e.body.price = none) (hq : e.body.quantity = none) :
    updateProduct env db e = ⟨⟨400, .errMsg "No fields to update"⟩, db, 0⟩ := by
  simp [updateProduct, htok, hver, noFieldsToUpdate, hn, hd, hp, hq, truthy, looseEqNull]

/-- C8 witness: the all-absent body is rejected with 400 on a concrete
authenticated request. -/
theorem claim_C8_update_no_fields_witness :
    updateProduct envOk [rowP1] eUpdEmpty = ⟨⟨400, .errMsg "No fields to update"⟩, [rowP1], 0⟩ :=
  claim_C8_update_no_fields envOk [rowP1] eUpdEmpty (by decide) (by decide) rfl rfl rfl rfl

/-- C6: a delete request with a valid token (and a working database)
always answers 200 with the success confirmation — whether or not a row
with the given `productId` exists, there is no 404 path — and afterwards
no row with that `productId` remains. -/
theorem claim_C6_delete_idempotent (env : Env) (db : DB) (e : Event)
    (htok : strTruthy (authToken e) = true)
    (hver : env.verify (bearerValue e) = true)
    (hdb : env.dbOk = true) :
    (deleteProduct env db e).resp = ⟨200, .okMsg "Product deleted successfully"⟩ ∧
    ∀ r ∈ (deleteProduct env db e).db, r.productId ≠ some e.pathProductId := by
  constructor
  · simp [deleteProduct, htok, hver, hdb]
  · intro r hr
    simp only [deleteProduct, htok, hver, hdb] at hr
    simp at hr
    exact hr.2

/-- C6 witness: deleting "P1" from a table that does hold a "P1" row (and
from one that does not, via the same theorem) returns 200 and leaves no
"P1" row. -/
theorem claim_C6_delete_idempotent_witness :
    (deleteProduct envOk [rowP1] eDelP1).resp = ⟨200, .okMsg "Product deleted successfully"⟩ ∧
    (∀ r ∈ (deleteProduct envOk [rowP1] eDelP1).db, r.productId ≠ some eDelP1.pathProductId) := by
  have h := claim_C6_delete_idempotent envOk [rowP1] eDelP1 (by decide) (by decide) rfl
  exact ⟨h.1, h.2⟩

/-- C5: once the auth-header presence check has passed, every later
failure is caught by the one broad `catch` of each handler and reported
as status 500 with the underlying error message: a token-verification
failure gives 500 `{error: "Unauthorized"}` (not 401), and a database
failure gives 500 with the database error message, so the two are
indistinguishable by status code. -/
theorem claim_C5_collapsed_failures (env : Env) (db : DB) (e : Event)
    (htok : strTruthy (authToken e) = true) :
    (env.verify (bearerValue e) = false →
      addProduct env db e = ⟨⟨500, .errMsg "Unauthorized"⟩, db, 0⟩ ∧
      getProductById env db e = ⟨⟨500, .errMsg "Unauthorized"⟩, db, 0⟩ ∧
      updateProduct env db e = ⟨⟨500, .errMsg "Unauthorized"⟩, db, 0⟩ ∧
      deleteProduct env db e = ⟨⟨500, .errMsg "Unauthorized"⟩, db, 0⟩) ∧
    (env.verify (bearerValue e) = true → env.dbOk = false →
      (getProductById env db e).resp = ⟨500, .errMsg env.dbErr⟩ ∧
      (deleteProduct env db e).resp = ⟨500, .errMsg env.dbErr⟩ ∧
      (missingRequired e.body = false →
        (addProduct env db e).resp = ⟨500, .errMsg env.dbErr⟩) ∧
      (noFieldsToUpdate e.body = false →
        (updateProduct env db e).resp = ⟨500, .errMsg env.dbErr⟩)) := by
  constructor
  · intro hver
    refine ⟨?_, ?_, ?_, ?_⟩ <;>
      simp [addProduct, getProductById, updateProduct, deleteProduct, htok, hver]
  · intro hver hdb
    refine ⟨?_, ?_, ?_, ?_⟩
    · simp [getProductById, htok, hver, hdb]
    · simp [deleteProduct, htok, hver, hdb]
    · intro hm; simp [addProduct, htok, hver, hm, hdb]
    · intro hf; simp [updateProduct, htok, hver, hf, hdb]

/-- C5 witness: an invalid token and a database outage both surface as
status 500 on concrete requests. -/
theorem claim_C5_collapsed_failures_witness :
    (addProduct envBadToken [rowP1] eCreateFull).resp.statusCode = 500 ∧
    (getProductById envDbDown [rowP1] eGetP1).resp.statusCode = 500 := by
  constructor
  · have h := (claim_C5_collapsed_failures envBadToken [rowP1] eCreateFull (by decide)).1 rfl
    rw [h.1]
  · have h := (claim_C5_collapsed_failures envDbDown [rowP1] eGetP1 (by decide)).2 rfl rfl
    rw [h.1]

/-- C10: the handlers read the bearer credential only through the two
exact header keys `Authorization` and `authorization`: when the values
under both exact keys are falsy (absent, e.g. because the token sits
under another casing, or the empty string), every authenticated handler
answers 401 `{error: "Authorization token missing"}` with the table
unchanged and no database statement — the result being the same for
every verification oracle, no token verification takes place — and any
two header lists agreeing at those two exact keys produce identical
handler results. -/
theorem claim_C10_exact_header_keys (env : Env) (db : DB) (e : Event)
    (hs : List (String × String)) :
    (strTruthy (lookupHeader e.headers "Authorization") = false →
     strTruthy (lookupHeader e.headers "authorization") = false →
      addProduct env db e = ⟨⟨401, .errMsg "Authorization token missing"⟩, db, 0⟩ ∧
      getProductById env db e = ⟨⟨401, .errMsg "Authorization token missing"⟩, db, 0⟩ ∧
      updateProduct env db e = ⟨⟨401, .errMsg "Authorization token missing"⟩, db, 0⟩ ∧
      deleteProduct env db e = ⟨⟨401, .errMsg "Authorization token missing"⟩, db, 0⟩) ∧
    (lookupHeader e.headers "Authorization" = lookupHeader hs "Authorization" →
     lookupHeader e.headers "authorization" = lookupHeader hs "authorization" →
      addProduct env db { e with headers := hs } = addProduct env db e ∧
      getProductById env db { e with headers := hs } = getProductById env db e ∧
      updateProduct env db { e with headers := hs } = updateProduct env db e ∧
      deleteProduct env db { e with headers := hs } = deleteProduct env db e) := by
  constructor
  · intro hA ha
    have ht : strTruthy (authToken e) = false := by
      simp only [authToken, jsOr, hA, if_false, Bool.false_eq_true]
      exact ha
    refine ⟨?_, ?_, ?_, ?_⟩ <;>
      simp [addProduct, getProductById, updateProduct, deleteProduct, ht]
  · intro h1 h2
    have hAuth : authToken { e with headers := hs } = authToken e := by
      simp [authToken, h1, h2]
    have hBear : bearerValue { e with headers := hs } = bearerValue e := by
      simp [bearerValue, hAuth]
    refine ⟨?_, ?_, ?_, ?_⟩ <;>
      simp [addProduct, getProductById, updateProduct, deleteProduct, hAuth, hBear]

/-- C10 witness: a token under the wrongly cased key `AUTHORIZATION` is
invisible to create, which answers 401 and touches nothing. -/
theorem claim_C10_exact_header_keys_witness :
    addProduct envOk [rowP1] eWrongCase = ⟨⟨401, .errMsg "Authorization token missing"⟩, [rowP1], 0⟩ :=
  ((claim_C10_exact_header_keys envOk [rowP1] eWrongCase []).1 (by decide) (by decide)).1

/-- C1 counterexample: the claim requires a 400 when any of the seven
fields is missing, but an authenticated create whose body omits
`productId`, `category` and `imageUrl` is accepted: it answers 201 and
executes the insert statement. -/
theorem claim_C1_seven_fields_counterexample :
    eCreateNoId.body.productId = none ∧
    eCreateNoId.body.category = none ∧
    eCreateNoId.body.imageUrl = none ∧
    (addProduct envOk [] eCreateNoId).resp.statusCode = 201 ∧
    (addProduct envOk [] eCreateNoId).dbCalls = 1 := by decide

/-- C1 amended: after the auth-header check and token verification, the
create payload is accepted only if `name`, `description` and `price` are
truthy and `quantity` is not loosely null; when that four-field check
fails the handler answers 400 and executes no database statement; the
`productId`, `category` and `imageUrl` fields are never examined. -/
theorem claim_C1_required_fields (env : Env) (db : DB) (e : Event)
    (htok : strTruthy (authToken e) = true)
    (hver : env.verify (bearerValue e) = true) :
    ((addProduct env db e).resp.statusCode = 400 ↔
      (truthy e.body.name = false ∨ truthy e.body.description = false ∨
       truthy e.body.price = false ∨ looseEqNull e.body.quantity = true)) ∧
    ((truthy e.body.name = false ∨ truthy e.body.description = false ∨
      truthy e.body.price = false ∨ looseEqNull e.body.quantity = true) →
      addProduct env db e = ⟨⟨400, .errMsg "Missing required fields"⟩, db, 0⟩) ∧
    (∀ p c i, addProduct env db
        { e with body := { e.body with productId := p, category := c, imageUrl := i } } =
      addProduct env db e) := by
  have hmiss : missingRequired e.body = true ↔
      (truthy e.body.name = false ∨ truthy e.body.description = false ∨
       truthy e.body.price = false ∨ looseEqNull e.body.quantity = true) := by
    simp [missingRequired, or_assoc]
  have h400 : missingRequired e.body = true →
      addProduct env db e = ⟨⟨400, .errMsg "Missing required fields"⟩, db, 0⟩ := by
    intro hm
    simp [addProduct, htok, hver, hm]
  refine ⟨?_, fun h => h400 (hmiss.mpr h), ?_⟩
  · constructor
    · intro h4
      by_cases hm : missingRequired e.body = true
      · exact hmiss.mp hm
      · exfalso
        have hm2 : missingRequired e.body = false := by simpa using hm
        cases hdb : env.dbOk <;>
          simp [addProduct, htok, hver, hm2, hdb] at h4
    · intro h
      rw [h400 (hmiss.mpr h)]
  · intro p c i
    simp [addProduct, authToken, bearerValue, missingRequired]

/-- C1 witness: an authenticated create missing `price` is rejected with
400 and no database statement. -/
theorem claim_C1_required_fields_witness :
    addProduct envOk [rowP1] eCreateNoPrice = ⟨⟨400, .errMsg "Missing required fields"⟩, [rowP1], 0⟩ :=
  (claim_C1_required_fields envOk [rowP1] eCreateNoPrice (by decide) (by decide)).2.1 (by decide)

/-- C2: the round-trip the spec demands fails in the code: a valid
authenticated create with the full seven-field body (price 9.99) answers
201, but the insert statement lists only `name`, `description`, `price`,
`quantity`, `createdAt` — no `productId`, `category` or `imageUrl` — so
the stored row has a NULL `productId` and the subsequent authenticated
read of `/products/P1` answers 404 instead of 200. -/
theorem claim_C2_roundtrip_fails :
    (addProduct envOk [] eCreateFull).resp.statusCode = 201 ∧
    (addProduct envOk [] eCreateFull).db =
      [⟨none, .jstr "Widget", .jstr "d", .jnum (mkRat 999 100), .jnum 5, 0⟩] ∧
    (getProductById envOk (addProduct envOk [] eCreateFull).db eGetP1).resp =
      ⟨404, .errMsg "Product not found"⟩ := by decide

/-- C4 counterexample: with a valid token, an update of an absent
`productId` ("P1", table holding only "Q") answers 200
`{message: "Product updated successfully"}` — and delete answers 200
`{message: "Product deleted successfully"}` — not a not-found report,
though both are no-ops on the table. -/
theorem claim_C4_not_found_counterexample :
    (updateProduct envOk [rowQ] eUpdNameP1).resp = ⟨200, .okMsg "Product updated successfully"⟩ ∧
    (updateProduct envOk [rowQ] eUpdNameP1).db = [rowQ] ∧
    (deleteProduct envOk [rowQ] eDelP1).resp = ⟨200, .okMsg "Product deleted successfully"⟩ ∧
    (deleteProduct envOk [rowQ] eDelP1).db = [rowQ] := by decide

/-- C4 amended: an update (with a non-empty field set) or delete with a
valid token whose `productId` matches no stored row is a no-op on the
table, but it is reported to the caller as plain success (status 200 with
the operation's confirmation message), not as not-found. -/
theorem claim_C4_no_match_noop (env : Env) (db : DB) (e : Event)
    (htok : strTruthy (authToken e) = true)
    (hver : env.verify (bearerValue e) = true)
    (hdb : env.dbOk = true)
    (hnone : ∀ r ∈ db, r.productId ≠ some e.pathProductId) :
    (noFieldsToUpdate e.body = false →
      updateProduct env db e = ⟨⟨200, .okMsg "Product updated successfully"⟩, db, 1⟩) ∧
    deleteProduct env db e = ⟨⟨200, .okMsg "Product deleted successfully"⟩, db, 1⟩ := by
  constructor
  · intro hf
    simp [updateProduct, htok, hver, hf, hdb, map_update_no_match e.body e.pathProductId db hnone]
  · simp [deleteProduct, htok, hver, hdb, filter_delete_no_match e.pathProductId db hnone]

/-- C4 witness: on the concrete one-row table holding only "Q", update
and delete of "P1" answer 200 and leave the table unchanged. -/
theorem claim_C4_no_match_noop_witness :
    updateProduct envOk [rowQ] eUpdNameP1 = ⟨⟨200, .okMsg "Product updated successfully"⟩, [rowQ], 1⟩ ∧
    deleteProduct envOk [rowQ] eDelP1 = ⟨⟨200, .okMsg "Product deleted successfully"⟩, [rowQ], 1⟩ := by
  constructor
  · exact (claim_C4_no_match_noop envOk [rowQ] eUpdNameP1 (by decide) (by decide) rfl
      (by decide)).1 (by decide)
  · exact (claim_C4_no_match_noop envOk [rowQ] eDelP1 (by decide) (by decide) rfl
      (by decide)).2

/-- C9: in create validation `quantity` is compared with `== null`, so a
quantity of exactly 0 passes the check and the insert is reached, while
`name`, `description` and `price` are tested for truthiness, so an empty
string or a 0 price is rejected as missing with status 400. -/
theorem claim_C9_truthiness_checks (env : Env) (db : DB) (e : Event)
    (htok : strTruthy (authToken e) = true)
    (hver : env.verify (bearerValue e) = true) :
    (e.body.quantity = some (.jnum 0) → truthy e.body.name = true →
     truthy e.body.description = true → truthy e.body.price = true →
      (addProduct env db e).resp.statusCode ≠ 400 ∧ (addProduct env db e).dbCalls = 1) ∧
    (e.body.price = some (.jnum 0) →
      addProduct env db e = ⟨⟨400, .errMsg "Missing required fields"⟩, db, 0⟩) ∧
    (e.body.name = some (.jstr "") →
      addProduct env db e = ⟨⟨400, .errMsg "Missing required fields"⟩, db, 0⟩) ∧
    (e.body.description = some (.jstr "") →
      addProduct env db e = ⟨⟨400, .errMsg "Missing required fields"⟩, db, 0⟩) := by
  refine ⟨?_, ?_, ?_, ?_⟩
  · intro hq hn hd hp
    have hm : missingRequired e.body = false := by
      simp [missingRequired, hn, hd, hp, hq, looseEqNull]
    cases hdb : env.dbOk <;>
      exact ⟨by simp [addProduct, htok, hver, hm, hdb], by simp [addProduct, htok, hver, hm, hdb]⟩
  · intro hp
    have hm : missingRequired e.body = true := by
      simp [missingRequired, hp, truthy]
    simp [addProduct, htok, hver, hm]
  · intro hn
    have hm : missingRequired e.body = true := by
      simp [missingRequired, hn, truthy]
    simp [addProduct, htok, hver, hm]
  · intro hd
    have hm : missingRequired e.body = true := by
      simp [missingRequired, hd, truthy]
    simp [addProduct, htok, hver, hm]

/-- C9 witness: a concrete authenticated create with `quantity` 0 and the
other checked fields present reaches the insert (status not 400, one
database statement). -/
theorem claim_C9_truthiness_checks_witness :
    (addProduct envOk [] eQtyZero).resp.statusCode ≠ 400 ∧
    (addProduct envOk [] eQtyZero).dbCalls = 1 :=
  (claim_C9_truthiness_checks envOk [] eQtyZero (by decide) (by decide)).1 rfl
    (by decide) (by decide) (by decide)

/-- Relation between a prior row and its post-update image: a matching
row keeps `productId` and `createdAt`, takes every supplied non-null body
field and retains every absent or null one; a non-matching row is
untouched. -/
def updatedAsRequested (b : Body) (pid : String) (r s : Row) : Prop :=
  (r.productId = some pid →
    s.productId = r.productId ∧ s.createdAt = r.createdAt ∧
    (∀ v, b.name = some v → v ≠ .jnull → s.name = v) ∧
    ((b.name = none ∨ b.name = some .jnull) → s.name = r.name) ∧
    (∀ v, b.description = some v → v ≠ .jnull → s.description = v) ∧
    ((b.description = none ∨ b.description = some .jnull) → s.description = r.description) ∧
    (∀ v, b.price = some v → v ≠ .jnull → s.price = v) ∧
    ((b.price = none ∨ b.price = some .jnull) → s.price = r.price) ∧
    (∀ v, b.quantity = some v → v ≠ .jnull → s.quantity = v) ∧
    ((b.quantity = none ∨ b.quantity = some .jnull) → s.quantity = r.quantity)) ∧
  (r.productId ≠ some pid → s = r)

/-- Row-by-row description of the `UPDATE` statement's effect. -/
theorem forall₂_update_map (b : Body) (pid : String) (db : DB) :
    List.Forall₂ (updatedAsRequested b pid)
      db (db.map (fun r => if r.productId = some pid then updateRow b r else r)) := by
  induction db with
  | nil => exact List.Forall₂.nil
  | cons r rest ih =>
    simp only [List.map_cons]
    refine List.Forall₂.cons ?_ ih
    show updatedAsRequested b pid r (if r.productId = some pid then updateRow b r else r)
    by_cases hid : r.productId = some pid
    · rw [if_pos hid]
      constructor
      · intro _
        refine ⟨rfl, rfl, ?_, ?_, ?_, ?_, ?_, ?_, ?_, ?_⟩
        · intro v hv hn
          show jsIsnull b.name r.name = v
          rw [hv]
          exact jsIsnull_some v r.name hn
        · intro hab
          exact jsIsnull_absent b.name r.name hab
        · intro v hv hn
          show jsIsnull b.description r.description = v
          rw [hv]
          exact jsIsnull_some v r.description hn
        · intro hab
          exact jsIsnull_absent b.description r.description hab
        · intro v hv hn
          show jsIsnull b.price r.price = v
          rw [hv]
          exact jsIsnull_some v r.price hn
        · intro hab
          exact jsIsnull_absent b.price r.price hab
        · intro v hv hn
          show jsIsnull b.quantity r.quantity = v
          rw [hv]
          exact jsIsnull_some v r.quantity hn
        · intro hab
          exact jsIsnull_absent b.quantity r.quantity hab
      · intro hne
        exact absurd hid hne
    · rw [if_neg hid]
      exact ⟨fun hmatch => absurd hmatch hid, fun _ => rfl⟩

/-- C7 counterexample: the claim promises that a supplied field takes the
new value, but an authenticated update of the existing row "P1" whose body
supplies only `price: 0` is answered 400 and the stored price stays 9.99. -/
theorem claim_C7_partial_update_counterexample :
    rowP1.productId = some ePrice0.pathProductId ∧
    ePrice0.body.price = some (.jnum 0) ∧
    (updateProduct envOk [rowP1] ePrice0).resp.statusCode = 400 ∧
    (updateProduct envOk [rowP1] ePrice0).db = [rowP1] := by decide

/-- C7 amended: for an authenticated update whose body passes the
no-fields check (at least one of `name`/`description`/`price` truthy or
`quantity` not loosely null), the handler answers 200 and rewrites the
table row-by-row: in each row matching the path `productId`, every
supplied non-null field takes its new value and every absent or
JSON-null field retains its prior value (`productId` and `createdAt`
untouched), and every other row is unchanged. -/
theorem claim_C7_partial_update_frame (env : Env) (db : DB) (e : Event)
    (htok : strTruthy (authToken e) = true)
    (hver : env.verify (bearerValue e) = true)
    (hdb : env.dbOk = true)
    (hpass : noFieldsToUpdate e.body = false) :
    (updateProduct env db e).resp = ⟨200, .okMsg "Product updated successfully"⟩ ∧
    List.Forall₂ (updatedAsRequested e.body e.pathProductId)
      db (updateProduct env db e).db := by
  have hdbres : (updateProduct env db e).db =
      db.map (fun r => if r.productId = some e.pathProductId then updateRow e.body r else r) := by
    simp [updateProduct, htok, hver, hpass, hdb]
  constructor
  · simp [updateProduct, htok, hver, hpass, hdb]
  · rw [hdbres]
    exact forall₂_update_map e.body e.pathProductId db

/-- C7 witness: updating "P1" with only `price: 19.99` answers 200, and
the frame relation holds of the concrete table; concretely the stored row
keeps name, description, quantity and `createdAt` and takes the new
price. -/
theorem claim_C7_partial_update_frame_witness :
    ((updateProduct envOk [rowP1] eUpdPrice).resp = ⟨200, .okMsg "Product updated successfully"⟩ ∧
      List.Forall₂ (updatedAsRequested eUpdPrice.body eUpdPrice.pathProductId)
        [rowP1] (updateProduct envOk [rowP1] eUpdPrice).db) ∧
    (updateProduct envOk [rowP1] eUpdPrice).db =
      [⟨some "P1", .jstr "Widget", .jstr "d", .jnum (mkRat 1999 100), .jnum 5, 0⟩] :=
  ⟨claim_C7_partial_update_frame envOk [rowP1] eUpdPrice (by decide) (by decide) rfl (by decide),
   by decide⟩

end ProductFunction
